import Mathlib

/-!
# Verification of the customer-analyze email classification service

Shallow embedding of `src/app.py` (Flask service): the pagination engine,
label normalization tables, confidence classifier, per-message analysis
pipeline and the `fetch_emails` / `analyze_email` orchestrations, together
with theorems settling the specification claims.

Modelling conventions:
* Python floats are modelled as rationals (`ℚ`).
* Python dict `.get` with optional keys is modelled with `Option` plus `getD`.
* External collaborators (mail connector, model layer, translation layer)
  are modelled as oracles recorded in an `Env` record: each call site reads
  the oracle's verdict (normal return value, or "the call raised").
* A Python call that may raise is modelled with `CallResult`; the control
  flow of `try`/`except` blocks is reproduced explicitly.
-/

set_option linter.unusedVariables false

namespace CustomerAnalyze

/-- Raw message dictionary coming from the mail store: every field may be
absent (`email.get(...)` in the source backfills placeholders). -/
structure RawMessage where
  subject : Option String
  sender : Option String
  date : Option String
  content : Option String
deriving Repr, DecidableEq

/-- Result dictionary of the model layer (`model_manager.analyze_email` /
`mail_analyzer.analyze_single_email`): keys read with `.get` defaults. -/
structure RawAnalysis where
  prediction : Option String
  confidence : Option ℚ
deriving Repr, DecidableEq

/-- Behaviour of one invocation of the model layer: it may raise, return
`None`, or return a result dictionary. -/
inductive ModelOutcome where
  | raises
  | noResult
  | result (r : RawAnalysis)
deriving Repr, DecidableEq

/-- The `analysis` sub-dictionary attached to each email in the batch
response. -/
structure AnalysisBlock where
  status : String
  is_normal : Option Bool
  confidence : ℚ
  prediction : String
deriving Repr, DecidableEq

/-- Modelled from the spec: the translation layer
(`translation_service.translate_email_content`, source not under `src/`)
returns a partial overlay of translated fields for one email; per the
collaborator contract it only carries translated text fields. -/
structure TranslationOverlay where
  translated_subject : Option String
  translated_content : Option String
deriving Repr, DecidableEq

/-- Behaviour of one invocation of the translation layer: it may raise
(caught per message, the email keeps its non-translated fields) or return
an overlay. -/
inductive TranslationOutcome where
  | raises
  | overlay (o : TranslationOverlay)
deriving Repr, DecidableEq

/-- One formatted email of the batch response (`email_data` in the
source). -/
structure EnrichedMessage where
  id : ℕ
  subject : String
  sender : String
  date : String
  content : String
  preview : String
  analysis : AnalysisBlock
  translated_subject : Option String
  translated_content : Option String
deriving Repr, DecidableEq

/-- Result of a call into an external collaborator that may raise. -/
inductive CallResult (α : Type) where
  | ok (a : α)
  | exn
deriving Repr, DecidableEq

/-- Python's `round(x, 2)` on our rational model: round to two decimal
places, ties to the even hundredth (Python rounds half to even; no claim
depends on tie behaviour). -/
def pyRound2 (x : ℚ) : ℚ :=
  let y := x * 100
  let f : ℤ := ⌊y⌋
  let r := y - f
  (if r < 1/2 then (f : ℚ)
   else if 1/2 < r then (f : ℚ) + 1
   else if f % 2 = 0 then (f : ℚ) else (f : ℚ) + 1) / 100

/-- The `label_mapping` dictionary of the batch path
(`fetch_emails`, source lines 152-158), read with
`label_mapping.get(prediction, prediction)`: unknown tokens pass through. -/
def label_mapping_batch (prediction : String) : String :=
  match prediction with
  | "LABEL_0" => "Normal"
  | "0" => "Normal"
  | "normal" => "Normal"
  | "LABEL_1" => "Pazar İhlali"
  | "1" => "Pazar İhlali"
  | "anormal" => "Anormal"
  | "LABEL_2" => "İhale İhlali"
  | "2" => "İhale İhlali"
  | "LABEL_3" => "Fiyat İhlali"
  | "3" => "Fiyat İhlali"
  | "LABEL_4" => "Bilgi İhlali"
  | "4" => "Bilgi İhlali"
  | _ => prediction

/-- The `label_mapping` dictionary of the single-email path
(`analyze_email`, source lines 248-259), read with
`label_mapping.get(prediction, prediction)`. -/
def label_mapping_single (prediction : String) : String :=
  match prediction with
  | "LABEL_0" => "Normal"
  | "LABEL_1" => "Pazar İhlali"
  | "LABEL_2" => "İhale İhlali"
  | "LABEL_3" => "Fiyat İhlali"
  | "LABEL_4" => "Bilgi İhlali"
  | "0" => "Normal"
  | "1" => "Pazar İhlali"
  | "2" => "İhale İhlali"
  | "3" => "Fiyat İhlali"
  | "4" => "Bilgi İhlali"
  | _ => prediction

/-- Key set of the batch-path `label_mapping` dictionary. -/
def batch_mapping_keys : List String :=
  ["LABEL_0", "0", "normal", "LABEL_1", "1", "anormal",
   "LABEL_2", "2", "LABEL_3", "3", "LABEL_4", "4"]

/-- Key set of the single-email-path `label_mapping` dictionary. -/
def single_mapping_keys : List String :=
  ["LABEL_0", "LABEL_1", "LABEL_2", "LABEL_3", "LABEL_4",
   "0", "1", "2", "3", "4"]

/-- Confidence bucketing of the single-email path
(`analyze_email`, source lines 269-274). -/
def classify_confidence (confidence : ℚ) : String :=
  if confidence > 0.8 then "Yüksek"
  else if confidence > 0.5 then "Orta"
  else "Düşük"

/-- Fallback block for an email with empty or absent content
(source lines 190-195). -/
def noAnalyzerBlock : AnalysisBlock :=
  { status := "Analiz Edilemedi", is_normal := none,
    confidence := 0, prediction := "NO_ANALYZER" }

/-- Fallback block when the model layer returned no result object
(source lines 175-180). -/
def unknownBlock : AnalysisBlock :=
  { status := "Analiz Edilemedi", is_normal := none,
    confidence := 0, prediction := "UNKNOWN" }

/-- Fallback block when the model layer raised
(source lines 183-188). -/
def errorBlock : AnalysisBlock :=
  { status := "Analiz Hatası", is_normal := none,
    confidence := 0, prediction := "ERROR" }

/-- Per-message analysis of the batch path (source lines 135-195):
the `if email.get('content'):` guard, the `try`/`except` around the model
call, and the fallback ladder. `selected_model` is forwarded to the model
layer; `outcome` is that call's behaviour for this message, and `mmPresent`
models the `if model_manager:` guard (when absent, `analysis_result` stays
`None`). -/
def analyze_block (selected_model : String) (content : Option String)
    (mmPresent : Bool) (outcome : ModelOutcome) : AnalysisBlock :=
  match content with
  | none => noAnalyzerBlock
  | some c =>
    if c = "" then noAnalyzerBlock
    else
      if mmPresent then
        match outcome with
        | .raises => errorBlock
        | .noResult => unknownBlock
        | .result r =>
          let prediction := r.prediction.getD "UNKNOWN"
          let confidence := r.confidence.getD 0
          let anomaly_type := label_mapping_batch prediction
          { status := anomaly_type
          , is_normal := some (decide (anomaly_type = "Normal"))
          , confidence := pyRound2 (confidence * 100)
          , prediction := prediction }
      else unknownBlock

/-- Formatting of one email of the page (source lines 126-205): placeholder
backfill, 150-character preview, analysis block, then the translation
augmentation (guarded by `if translation_service:`, failure caught per
message). -/
def format_email (selected_model : String) (mmPresent tsPresent : Bool)
    (start_idx i : ℕ) (email : RawMessage)
    (mo : ModelOutcome) (tr : TranslationOutcome) : EnrichedMessage :=
  let content := email.content.getD ""
  let base : EnrichedMessage :=
    { id := start_idx + i
    , subject := email.subject.getD "No Subject"
    , sender := email.sender.getD "Unknown Sender"
    , date := email.date.getD "Unknown Date"
    , content := content
    , preview := if content.length > 150 then content.take 150 ++ "..." else content
    , analysis := analyze_block selected_model email.content mmPresent mo
    , translated_subject := none
    , translated_content := none }
  if tsPresent then
    match tr with
    | .raises => base
    | .overlay o =>
        { base with
          translated_subject := o.translated_subject
        , translated_content := o.translated_content }
  else base

/-- The `for i, email in enumerate(emails):` loop of the batch path:
`mo`/`to` give the model and translation layer behaviour at each loop
index. -/
def format_emails (selected_model : String) (mmPresent tsPresent : Bool)
    (mo : ℕ → ModelOutcome) (tr : ℕ → TranslationOutcome)
    (start_idx : ℕ) : ℕ → List RawMessage → List EnrichedMessage
  | _, [] => []
  | i, e :: rest =>
      format_email selected_model mmPresent tsPresent start_idx i e (mo i) (tr i) ::
      format_emails selected_model mmPresent tsPresent mo tr start_idx (i + 1) rest

/-- Pagination engine (source lines 109-116): totals, 0-based start offset
and the page slice of the reversed id sequence. Returns
`(page_email_ids, total_pages, start_idx)`. Query parameters are modelled
as naturals; the claims quantify over `page ≥ 1`, `per_page ≥ 1`, where
natural and Python integer arithmetic agree. -/
def paginate (email_ids : List ℕ) (page per_page : ℕ) :
    List ℕ × ℕ × ℕ :=
  let total_emails := email_ids.length
  let total_pages := (total_emails + per_page - 1) / per_page
  let start_idx := (page - 1) * per_page
  let reversed_email_ids := email_ids.reverse
  let page_email_ids := (reversed_email_ids.drop start_idx).take per_page
  (page_email_ids, total_pages, start_idx)

/-- Body of a successful `/api/fetch-emails` JSON response. The empty-result
branch (source lines 99-106) omits `start_index`/`end_index`, hence the
`Option`. -/
structure BatchBody where
  emails : List EnrichedMessage
  total_emails : ℕ
  current_page : ℕ
  total_pages : ℕ
  per_page : ℕ
  start_index : Option ℕ
  end_index : Option ℕ
  message : String
deriving Repr, DecidableEq

/-- Outcome of `/api/fetch-emails`: HTTP 200 with a body, or HTTP 500 with
an error string. -/
inductive FetchResult where
  | success (body : BatchBody)
  | failure (msg : String)
deriving Repr, DecidableEq

/-- Body of a `FetchResult`, when it is a success. -/
def FetchResult.body : FetchResult → Option BatchBody
  | .success b => some b
  | .failure _ => none

/-- Environment of one `/api/fetch-emails` request: presence of the global
service handles and the behaviour of each external call the handler makes. -/
structure Env where
  mail_fetcher_present : Bool
  connect_ok : Bool
  select_mailbox : CallResult Unit
  search_emails : CallResult (List ℕ)
  fetch_multiple_emails : List ℕ → CallResult (List RawMessage)
  model_manager_present : Bool
  model_outcome : ℕ → ModelOutcome
  translation_present : Bool
  translation_outcome : ℕ → TranslationOutcome

/-- The `/api/fetch-emails` handler (source lines 75-221). The second
component counts how many times `mail_fetcher.disconnect()` ran. The outer
`try`/`except` turns any exception into a 500 response; the source has no
`finally`, so an exception raised between `connect()` and a `disconnect()`
call site leaves the count at 0. -/
def fetch_emails (env : Env) (page per_page : ℕ) (selected_model : String) :
    FetchResult × ℕ :=
  if ¬ env.mail_fetcher_present then
    (.failure "Mail fetcher not initialized", 0)
  else if ¬ env.connect_ok then
    (.failure "Failed to connect to email server", 0)
  else
    match env.select_mailbox with
    | .exn => (.failure "Failed to fetch emails", 0)
    | .ok _ =>
      match env.search_emails with
      | .exn => (.failure "Failed to fetch emails", 0)
      | .ok email_ids =>
        if email_ids = [] then
          (.success
            { emails := []
            , total_emails := 0
            , current_page := page
            , total_pages := 0
            , per_page := per_page
            , start_index := none
            , end_index := none
            , message := "No emails found" }, 1)
        else
          let total_emails := email_ids.length
          let pag := paginate email_ids page per_page
          match env.fetch_multiple_emails pag.1 with
          | .exn => (.failure "Failed to fetch emails", 0)
          | .ok emails =>
            let formatted_emails :=
              format_emails selected_model env.model_manager_present
                env.translation_present env.model_outcome
                env.translation_outcome pag.2.2 0 emails
            (.success
              { emails := formatted_emails
              , total_emails := total_emails
              , current_page := page
              , total_pages := pag.2.1
              , per_page := per_page
              , start_index := some (pag.2.2 + 1)
              , end_index := some (min (pag.2.2 + per_page) total_emails)
              , message := toString formatted_emails.length ++
                  " emails fetched and analyzed successfully" }, 1)

/-- JSON body of a successful `/api/analyze-email` response (the
`analysis_time` and `message` fields are presentation-only and omitted). -/
structure SingleResponse where
  status : String
  is_normal : Bool
  confidence : ℚ
  confidence_level : String
  prediction : String
deriving Repr, DecidableEq

/-- Formatting step of the `/api/analyze-email` handler after the analyzer
returned a result object (source lines 244-284). -/
def analyze_email_success (r : RawAnalysis) : SingleResponse :=
  let prediction := r.prediction.getD "UNKNOWN"
  let confidence := r.confidence.getD 0
  let anomaly_type := label_mapping_single prediction
  { status := anomaly_type
  , is_normal := decide (anomaly_type = "Normal")
  , confidence := pyRound2 (confidence * 100)
  , confidence_level := classify_confidence confidence
  , prediction := prediction }

/-! ## Helper lemmas about the label mapping tables -/

/-- The batch mapping sends every token to itself or into its value set. -/
theorem label_mapping_batch_cases (x : String) :
    label_mapping_batch x = x ∨
      label_mapping_batch x ∈
        ["Normal", "Pazar İhlali", "Anormal", "İhale İhlali",
         "Fiyat İhlali", "Bilgi İhlali"] := by
  unfold label_mapping_batch
  split <;> simp

/-- Every value of the batch mapping is a fixed point of it. -/
theorem label_mapping_batch_fixed_values :
    ∀ y ∈ ["Normal", "Pazar İhlali", "Anormal", "İhale İhlali",
           "Fiyat İhlali", "Bilgi İhlali"],
      label_mapping_batch y = y := by decide

/-- Tokens outside the batch table's key set pass through unchanged. -/
theorem label_mapping_batch_passthrough (t : String)
    (ht : t ∉ batch_mapping_keys) : label_mapping_batch t = t := by
  simp only [batch_mapping_keys, List.mem_cons, List.not_mem_nil,
    or_false, not_or] at ht
  unfold label_mapping_batch
  split <;> simp_all

/-- The single-email mapping sends every token to itself or into its value
set. -/
theorem label_mapping_single_cases (x : String) :
    label_mapping_single x = x ∨
      label_mapping_single x ∈
        ["Normal", "Pazar İhlali", "İhale İhlali",
         "Fiyat İhlali", "Bilgi İhlali"] := by
  unfold label_mapping_single
  split <;> simp

/-- Every value of the single-email mapping is a fixed point of it. -/
theorem label_mapping_single_fixed_values :
    ∀ y ∈ ["Normal", "Pazar İhlali", "İhale İhlali",
           "Fiyat İhlali", "Bilgi İhlali"],
      label_mapping_single y = y := by decide

/-- Tokens outside the single-email table's key set pass through
unchanged. -/
theorem label_mapping_single_passthrough (t : String)
    (ht : t ∉ single_mapping_keys) : label_mapping_single t = t := by
  simp only [single_mapping_keys, List.mem_cons, List.not_mem_nil,
    or_false, not_or] at ht
  unfold label_mapping_single
  split <;> simp_all

/-! ## Helper lemmas about the formatting loop -/

/-- The id assigned by `format_email` is the page start offset plus the
loop index, whatever the translation layer does. -/
theorem format_email_id (selected_model : String) (mmPresent tsPresent : Bool)
    (start_idx i : ℕ) (email : RawMessage)
    (mo : ModelOutcome) (tr : TranslationOutcome) :
    (format_email selected_model mmPresent tsPresent start_idx i email mo tr).id =
      start_idx + i := by
  unfold format_email
  cases tsPresent <;> cases tr <;> simp

/-- The formatting loop yields one output per fetched message. -/
theorem format_emails_length (selected_model : String)
    (mmPresent tsPresent : Bool) (mo : ℕ → ModelOutcome)
    (tr : ℕ → TranslationOutcome) (start_idx i : ℕ)
    (msgs : List RawMessage) :
    (format_emails selected_model mmPresent tsPresent mo tr
        start_idx i msgs).length = msgs.length := by
  induction msgs generalizing i with
  | nil => rfl
  | cons e rest ih => simp [format_emails, ih]

/-- The `j`-th output of the formatting loop depends only on the `j`-th
fetched message and the collaborators' behaviour at that index. -/
theorem format_emails_getElem (selected_model : String)
    (mmPresent tsPresent : Bool) (mo : ℕ → ModelOutcome)
    (tr : ℕ → TranslationOutcome) (start_idx i j : ℕ)
    (msgs : List RawMessage) :
    (format_emails selected_model mmPresent tsPresent mo tr
        start_idx i msgs)[j]? =
      (msgs[j]?).map (fun e =>
        format_email selected_model mmPresent tsPresent start_idx (i + j) e
          (mo (i + j)) (tr (i + j))) := by
  induction msgs generalizing i j with
  | nil => simp [format_emails]
  | cons e rest ih =>
    cases j with
    | zero => simp [format_emails]
    | succ j' =>
      have harith : i + 1 + j' = i + (j' + 1) := by omega
      simp [format_emails, ih (i + 1) j', harith]

/-! ## Claim theorems -/

/-- C6: the confidence classifier returns "Yüksek" iff the score exceeds
0.8, "Orta" iff it lies in (0.5, 0.8], and "Düşük" iff it is at most 0.5;
in particular at the scores 0.81, 0.8, 0.6 and 0.5 it returns "Yüksek",
"Orta", "Orta" and "Düşük". -/
theorem C6_confidence_tiers (s : ℚ) :
    ((classify_confidence s = "Yüksek") ↔ 0.8 < s) ∧
    ((classify_confidence s = "Orta") ↔ 0.5 < s ∧ s ≤ 0.8) ∧
    ((classify_confidence s = "Düşük") ↔ s ≤ 0.5) ∧
    classify_confidence 0.81 = "Yüksek" ∧
    classify_confidence 0.8 = "Orta" ∧
    classify_confidence 0.6 = "Orta" ∧
    classify_confidence 0.5 = "Düşük" := by
  refine ⟨?_, ?_, ?_, by norm_num [classify_confidence],
    by norm_num [classify_confidence], by norm_num [classify_confidence],
    by norm_num [classify_confidence]⟩ <;>
  · unfold classify_confidence
    split_ifs with h1 h2 <;> simp_all <;> linarith

/-- C7: both label normalizers are idempotent on every token, and any token
outside the mapping table's key set passes through as itself. -/
theorem C7_normalizer_total_idempotent (x t : String)
    (htb : t ∉ batch_mapping_keys) (hts : t ∉ single_mapping_keys) :
    label_mapping_batch (label_mapping_batch x) = label_mapping_batch x ∧
    label_mapping_single (label_mapping_single x) = label_mapping_single x ∧
    label_mapping_batch t = t ∧
    label_mapping_single t = t := by
  refine ⟨?_, ?_, label_mapping_batch_passthrough t htb,
    label_mapping_single_passthrough t hts⟩
  · rcases label_mapping_batch_cases x with h | h
    · rw [h]; exact h
    · exact label_mapping_batch_fixed_values _ h
  · rcases label_mapping_single_cases x with h | h
    · rw [h]; exact h
    · exact label_mapping_single_fixed_values _ h

/-- Witness for C7 at the token "LABEL_1" and the unknown token "foo". -/
theorem C7_normalizer_total_idempotent_witness :
    label_mapping_batch (label_mapping_batch "LABEL_1") =
      label_mapping_batch "LABEL_1" ∧
    label_mapping_single (label_mapping_single "LABEL_1") =
      label_mapping_single "LABEL_1" ∧
    label_mapping_batch "foo" = "foo" ∧
    label_mapping_single "foo" = "foo" :=
  C7_normalizer_total_idempotent "LABEL_1" "foo" (by decide) (by decide)

/-- C9 counterexample: the two label mappings are not the same function —
the batch path maps the raw token "anormal" to "Anormal" while the
single-email path passes it through unchanged. -/
theorem C9_counterexample :
    label_mapping_batch "anormal" = "Anormal" ∧
    label_mapping_single "anormal" = "anormal" ∧
    ("Anormal" : String) ≠ "anormal" :=
  ⟨by decide, by decide, by decide⟩

/-- C9 (amended): the batch-path and single-email-path label mappings agree
on every raw token other than "normal" and "anormal" (the two keys present
only in the batch table). -/
theorem C9_amended_agree_outside_normal_tokens (t : String)
    (h1 : t ≠ "normal") (h2 : t ≠ "anormal") :
    label_mapping_batch t = label_mapping_single t := by
  unfold label_mapping_batch label_mapping_single
  split <;> split <;> simp_all

/-- Witness for the amended C9 at the token "LABEL_2". -/
theorem C9_amended_agree_outside_normal_tokens_witness :
    label_mapping_batch "LABEL_2" = label_mapping_single "LABEL_2" :=
  C9_amended_agree_outside_normal_tokens "LABEL_2" (by decide) (by decide)

/-- C10 counterexample: a model result whose raw prediction token is itself
the literal "Analiz Hatası" passes through the normalizer, producing a
block whose status is a fallback state while `is_normal` is `some false`,
not `null` — so `is_normal` is not null *exactly* on the fallback
statuses. -/
theorem C10_counterexample :
    (analyze_block "transformer" (some "x") true
        (.result { prediction := some "Analiz Hatası",
                   confidence := some 0 })).status = "Analiz Hatası" ∧
    (analyze_block "transformer" (some "x") true
        (.result { prediction := some "Analiz Hatası",
                   confidence := some 0 })).is_normal = some false := by
  constructor <;> rfl

/-- C10 (amended): in every analysis block of the batch path, `is_normal`
is `some true` iff the status is "Normal", and whenever `is_normal` is
`null` the status is one of the two fallback states (the converse can fail
when the raw token is itself a fallback literal); in the single-email path
`is_normal` is true iff the status is "Normal". -/
theorem C10_amended_is_normal_invariant (selected_model : String)
    (content : Option String) (mmPresent : Bool) (o : ModelOutcome)
    (r : RawAnalysis) :
    ((analyze_block selected_model content mmPresent o).is_normal =
        some true ↔
      (analyze_block selected_model content mmPresent o).status =
        "Normal") ∧
    ((analyze_block selected_model content mmPresent o).is_normal = none →
      (analyze_block selected_model content mmPresent o).status =
          "Analiz Edilemedi" ∨
        (analyze_block selected_model content mmPresent o).status =
          "Analiz Hatası") ∧
    ((analyze_email_success r).is_normal = true ↔
      (analyze_email_success r).status = "Normal") := by
  refine ⟨?_, ?_, ?_⟩
  · rcases content with _ | c
    · simp [analyze_block, noAnalyzerBlock]
    · by_cases hc : c = ""
      · subst hc; simp [analyze_block, noAnalyzerBlock]
      · rcases mmPresent with _ | _
        · simp [analyze_block, hc, unknownBlock]
        · rcases o with _ | _ | r'
          · simp [analyze_block, hc, errorBlock]
          · simp [analyze_block, hc, unknownBlock]
          · simp [analyze_block, hc]
  · rcases content with _ | c
    · simp [analyze_block, noAnalyzerBlock]
    · by_cases hc : c = ""
      · subst hc; simp [analyze_block, noAnalyzerBlock]
      · rcases mmPresent with _ | _
        · simp [analyze_block, hc, unknownBlock]
        · rcases o with _ | _ | r'
          · simp [analyze_block, hc, errorBlock]
          · simp [analyze_block, hc, unknownBlock]
          · simp [analyze_block, hc]
  · simp [analyze_email_success]

/-- C4: a message with empty or absent content always gets the
NO_ANALYZER fallback block, and the result does not depend on the model
layer's behaviour (the model-selection layer is never invoked). -/
theorem C4_empty_content_no_model_call (selected_model : String)
    (mmPresent : Bool) (content : Option String)
    (hcontent : content = none ∨ content = some "")
    (o1 o2 : ModelOutcome) :
    analyze_block selected_model content mmPresent o1 =
      { status := "Analiz Edilemedi", is_normal := none,
        confidence := 0, prediction := "NO_ANALYZER" } ∧
    analyze_block selected_model content mmPresent o1 =
      analyze_block selected_model content mmPresent o2 := by
  rcases hcontent with h | h <;> subst h <;>
    simp [analyze_block, noAnalyzerBlock]

/-- Witness for C4: empty content ("") with a raising model layer on one
side and a no-result model layer on the other. -/
theorem C4_empty_content_no_model_call_witness :
    analyze_block "svm" (some "") true .raises =
      { status := "Analiz Edilemedi", is_normal := none,
        confidence := 0, prediction := "NO_ANALYZER" } ∧
    analyze_block "svm" (some "") true .raises =
      analyze_block "svm" (some "") true .noResult :=
  C4_empty_content_no_model_call "svm" true (some "") (Or.inr rfl)
    .raises .noResult

/-- C3: a model-layer exception on a non-empty message yields the
"Analiz Hatası"/ERROR fallback block, a missing result object yields the
"Analiz Edilemedi"/UNKNOWN fallback block, and the batch loop processes
and returns every message independently: output length equals input
length, and the `j`-th response item is a function of the `j`-th message
alone, so a failure at one index cannot drop later messages. -/
theorem C3_per_message_failure_isolated (selected_model : String)
    (c : String) (hc : c ≠ "") (mmPresent tsPresent : Bool)
    (mo : ℕ → ModelOutcome) (tr : ℕ → TranslationOutcome)
    (start_idx i j : ℕ) (msgs : List RawMessage) :
    analyze_block selected_model (some c) true .raises =
      { status := "Analiz Hatası", is_normal := none,
        confidence := 0, prediction := "ERROR" } ∧
    analyze_block selected_model (some c) true .noResult =
      { status := "Analiz Edilemedi", is_normal := none,
        confidence := 0, prediction := "UNKNOWN" } ∧
    (format_emails selected_model mmPresent tsPresent mo tr
        start_idx i msgs).length = msgs.length ∧
    (format_emails selected_model mmPresent tsPresent mo tr
        start_idx i msgs)[j]? =
      (msgs[j]?).map (fun e =>
        format_email selected_model mmPresent tsPresent start_idx (i + j) e
          (mo (i + j)) (tr (i + j))) :=
  ⟨by simp [analyze_block, hc, errorBlock],
   by simp [analyze_block, hc, unknownBlock],
   format_emails_length selected_model mmPresent tsPresent mo tr
     start_idx i msgs,
   format_emails_getElem selected_model mmPresent tsPresent mo tr
     start_idx i j msgs⟩

/-- Two-message page used by the C3 witness: the model layer raises on the
first message and returns no result on the second. -/
def msgs_C3 : List RawMessage :=
  [{ subject := some "a", sender := some "s1", date := some "d1",
     content := some "first body" },
   { subject := some "b", sender := some "s2", date := some "d2",
     content := some "second body" }]

/-- Model-layer behaviour for the C3 witness: index 0 raises, every other
index returns no result. -/
def mo_C3 : ℕ → ModelOutcome := fun i =>
  if i = 0 then .raises else .noResult

/-- Witness for C3: with a model layer that raises on message 0, message 1
is still analyzed and included. -/
theorem C3_per_message_failure_isolated_witness :
    analyze_block "transformer" (some "gövde") true .raises =
      { status := "Analiz Hatası", is_normal := none,
        confidence := 0, prediction := "ERROR" } ∧
    analyze_block "transformer" (some "gövde") true .noResult =
      { status := "Analiz Edilemedi", is_normal := none,
        confidence := 0, prediction := "UNKNOWN" } ∧
    (format_emails "transformer" true false mo_C3 (fun _ => .raises)
        0 0 msgs_C3).length = msgs_C3.length ∧
    (format_emails "transformer" true false mo_C3 (fun _ => .raises)
        0 0 msgs_C3)[1]? =
      (msgs_C3[1]?).map (fun e =>
        format_email "transformer" true false 0 (0 + 1) e
          (mo_C3 (0 + 1)) ((fun _ => .raises) (0 + 1))) :=
  C3_per_message_failure_isolated "transformer" "gövde" (by decide)
    true false mo_C3 (fun _ => .raises) 0 0 1 msgs_C3

/-- C5: when the mailbox search returns zero ids, the handler responds
HTTP 200 with the explicit empty envelope (no emails, zero totals) and
releases the session exactly once. -/
theorem C5_zero_results_empty_envelope (env : Env) (page per_page : ℕ)
    (selected_model : String)
    (hmf : env.mail_fetcher_present = true) (hc : env.connect_ok = true)
    (hsel : env.select_mailbox = .ok ())
    (hsearch : env.search_emails = .ok []) :
    fetch_emails env page per_page selected_model =
      (.success
        { emails := []
        , total_emails := 0
        , current_page := page
        , total_pages := 0
        , per_page := per_page
        , start_index := none
        , end_index := none
        , message := "No emails found" }, 1) := by
  simp [fetch_emails, hmf, hc, hsel, hsearch]

/-- Environment for the C5 witness: connect succeeds and the search comes
back empty. -/
def env_C5 : Env :=
  { mail_fetcher_present := true
  , connect_ok := true
  , select_mailbox := .ok ()
  , search_emails := .ok []
  , fetch_multiple_emails := fun _ => .ok []
  , model_manager_present := true
  , model_outcome := fun _ => .noResult
  , translation_present := false
  , translation_outcome := fun _ => .raises }

/-- Witness for C5 at a concrete empty-search environment. -/
theorem C5_zero_results_empty_envelope_witness :
    fetch_emails env_C5 3 7 "transformer" =
      (.success
        { emails := []
        , total_emails := 0
        , current_page := 3
        , total_pages := 0
        , per_page := 7
        , start_index := none
        , end_index := none
        , message := "No emails found" }, 1) :=
  C5_zero_results_empty_envelope env_C5 3 7 "transformer" rfl rfl rfl rfl

/-- Environment exhibiting the C1 resource leak: the server connects, the
mailbox is selected, then `search_emails` raises. -/
def env_C1 : Env :=
  { mail_fetcher_present := true
  , connect_ok := true
  , select_mailbox := .ok ()
  , search_emails := .exn
  , fetch_multiple_emails := fun _ => .exn
  , model_manager_present := true
  , model_outcome := fun _ => .raises
  , translation_present := false
  , translation_outcome := fun _ => .raises }

/-- C1 (code bug evidence): the handler has no `finally`, so when
`connect()` succeeds and `search_emails` then raises, the outer `except`
returns HTTP 500 with `disconnect()` invoked 0 times — the session is left
open, contradicting the claim that it is released exactly once on every
exit path after a successful connect. -/
theorem C1_disconnect_skipped_on_exception :
    env_C1.connect_ok = true ∧
    fetch_emails env_C1 1 10 "transformer" =
      (.failure "Failed to fetch emails", 0) :=
  ⟨rfl, rfl⟩

/-- Mailbox message used by the C8 environment. -/
def msg_C8 : RawMessage :=
  { subject := some "konu", sender := some "gönderen"
  , date := some "tarih", content := some "merhaba" }

/-- Environment for C8: one message id found, one message fetched, first
page requested. -/
def env_C8 : Env :=
  { mail_fetcher_present := true
  , connect_ok := true
  , select_mailbox := .ok ()
  , search_emails := .ok [42]
  , fetch_multiple_emails := fun _ => .ok [msg_C8]
  , model_manager_present := false
  , model_outcome := fun _ => .noResult
  , translation_present := false
  , translation_outcome := fun _ => .raises }

/-- C8 counterexample: on page 1 the response's 1-based `start_index` is 1
while the message at local offset 0 is assigned id 0, so
`id ≠ start_index + offset` — the assigned id is the 0-based
`start_idx + offset`, one less than the claim's value. -/
theorem C8_counterexample :
    ((fetch_emails env_C8 1 10 "transformer").1.body.map
      (fun b => (b.emails.map EnrichedMessage.id, b.start_index))) =
      some ([0], some 1) ∧
    (0 : ℕ) ≠ 1 + 0 :=
  ⟨rfl, by decide⟩

/-- C8 (amended): on every non-empty page the message at local offset `i`
is assigned `id = (page-1)*per_page + i`, which is `start_index - 1 + i`
for the 1-based `start_index = (page-1)*per_page + 1` returned in the same
envelope. -/
theorem C8_amended_id_is_start_offset_plus_i (env : Env)
    (page per_page : ℕ) (selected_model : String) (ids : List ℕ)
    (msgs : List RawMessage)
    (hmf : env.mail_fetcher_present = true) (hc : env.connect_ok = true)
    (hsel : env.select_mailbox = .ok ())
    (hsearch : env.search_emails = .ok ids) (hids : ids ≠ [])
    (hfetch : env.fetch_multiple_emails (paginate ids page per_page).1 =
      .ok msgs) (i : ℕ) :
    ((fetch_emails env page per_page selected_model).1.body.map
        BatchBody.start_index) =
      some (some ((page - 1) * per_page + 1)) ∧
    ((fetch_emails env page per_page selected_model).1.body.map
        (fun b => (b.emails[i]?).map EnrichedMessage.id)) =
      some ((msgs[i]?).map (fun _ => (page - 1) * per_page + i)) := by
  have hstart : (paginate ids page per_page).2.2 = (page - 1) * per_page :=
    rfl
  constructor
  · simp [fetch_emails, hmf, hc, hsel, hsearch, hids, hfetch,
      FetchResult.body, hstart]
  · simp only [fetch_emails, hmf, hc, hsel, hsearch, hids, hfetch,
      FetchResult.body, Bool.not_true, not_true_eq_false, if_false,
      Option.map_some]
    simp only [Option.map_some', hstart]
    rw [format_emails_getElem]
    cases hmi : msgs[i]? <;> simp [hmi, format_email_id]

/-- Witness for the amended C8 at the concrete one-message environment:
start_index is 1 and the message at offset 0 has id 0. -/
theorem C8_amended_id_is_start_offset_plus_i_witness :
    ((fetch_emails env_C8 1 10 "transformer").1.body.map
        BatchBody.start_index) =
      some (some ((1 - 1) * 10 + 1)) ∧
    ((fetch_emails env_C8 1 10 "transformer").1.body.map
        (fun b => (b.emails[0]?).map EnrichedMessage.id)) =
      some (([msg_C8][0]?).map (fun _ => (1 - 1) * 10 + 0)) :=
  C8_amended_id_is_start_offset_plus_i env_C8 1 10 "transformer" [42]
    [msg_C8] rfl rfl rfl rfl (by decide) rfl 0

/-- Python's `(T + p - 1) // p` equals the ceiling of `T / p` for a
positive total and page size. -/
theorem ceil_div_eq_python_div (T p : ℕ) (hT : 1 ≤ T) (hp : 1 ≤ p) :
    (T + p - 1) / p = ⌈(T : ℚ) / (p : ℚ)⌉₊ := by
  have hp0 : 0 < p := hp
  have hpq : (0 : ℚ) < p := by exact_mod_cast hp0
  apply le_antisymm
  · rw [Nat.div_le_iff_le_mul_add_pred hp0]
    have h1 : (T : ℚ) ≤ (⌈(T : ℚ) / (p : ℚ)⌉₊ : ℚ) * p :=
      (div_le_iff₀ hpq).mp (Nat.le_ceil _)
    have h2 : T ≤ ⌈(T : ℚ) / (p : ℚ)⌉₊ * p := by exact_mod_cast h1
    rw [Nat.mul_comm] at h2
    generalize p * ⌈(T : ℚ) / (p : ℚ)⌉₊ = m at h2 ⊢
    omega
  · rw [Nat.le_div_iff_mul_le hp0]
    have hcpos : 0 < ⌈(T : ℚ) / (p : ℚ)⌉₊ := by
      rw [Nat.ceil_pos]
      have hTq : (0 : ℚ) < T := by exact_mod_cast hT
      positivity
    obtain ⟨d, hd⟩ : ∃ d, ⌈(T : ℚ) / (p : ℚ)⌉₊ = d + 1 :=
      ⟨_, (Nat.succ_pred_eq_of_pos hcpos).symm⟩
    rw [hd]
    have hltd : (d : ℚ) < (T : ℚ) / p := by
      rw [← Nat.lt_ceil, hd]
      omega
    have hlt2 : (d : ℚ) * p < T := (lt_div_iff₀ hpq).mp hltd
    have hlt3 : d * p < T := by exact_mod_cast hlt2
    have hexp : (d + 1) * p = d * p + p := by ring
    rw [hexp]
    generalize d * p = m at hlt3 ⊢
    omega

/-- C2: for a non-empty id sequence and `page, per_page ≥ 1`, the
pagination step selects the clamped slice
`[(page-1)*per_page, (page-1)*per_page + per_page)` of the reversed id
sequence, `total_pages` is the ceiling of `T / per_page`, the selection
length is `min(per_page, max(0, T - (page-1)*per_page))`, and an
out-of-range page yields an empty selection rather than an error. -/
theorem C2_pagination_correct (ids : List ℕ) (page per_page : ℕ)
    (hp : 1 ≤ page) (hpp : 1 ≤ per_page) (hT : 1 ≤ ids.length) :
    (paginate ids page per_page).1 =
      (ids.reverse.drop ((page - 1) * per_page)).take per_page ∧
    (paginate ids page per_page).2.1 =
      ⌈(ids.length : ℚ) / (per_page : ℚ)⌉₊ ∧
    (((paginate ids page per_page).1.length : ℤ) =
      min (per_page : ℤ)
        (max 0 ((ids.length : ℤ) - ((page : ℤ) - 1) * per_page))) ∧
    ((ids.length : ℤ) ≤ ((page : ℤ) - 1) * per_page →
      (paginate ids page per_page).1 = []) := by
  have hcast : (((page - 1) * per_page : ℕ) : ℤ) =
      ((page : ℤ) - 1) * per_page := by
    push_cast [Nat.cast_sub hp]
    ring
  refine ⟨rfl, ?_, ?_, ?_⟩
  · simpa [paginate] using
      ceil_div_eq_python_div ids.length per_page hT hpp
  · simp only [paginate, List.length_take, List.length_drop,
      List.length_reverse]
    rw [← hcast]
    generalize ((page - 1) * per_page : ℕ) = s
    omega
  · intro h
    rw [← hcast] at h
    have h2 : ids.length ≤ (page - 1) * per_page := by exact_mod_cast h
    have h3 : ids.reverse.length ≤ (page - 1) * per_page := by simpa using h2
    simp [paginate, List.drop_eq_nil_of_le h3]

/-- Witness for C2: ids 1..10, page 4, per_page 3 — the last page selects
exactly one id. -/
theorem C2_pagination_correct_witness :
    (paginate [1, 2, 3, 4, 5, 6, 7, 8, 9, 10] 4 3).1 =
      (([1, 2, 3, 4, 5, 6, 7, 8, 9, 10] : List ℕ).reverse.drop
        ((4 - 1) * 3)).take 3 ∧
    (paginate [1, 2, 3, 4, 5, 6, 7, 8, 9, 10] 4 3).2.1 =
      ⌈(([1, 2, 3, 4, 5, 6, 7, 8, 9, 10] : List ℕ).length : ℚ) /
        ((3 : ℕ) : ℚ)⌉₊ ∧
    (((paginate [1, 2, 3, 4, 5, 6, 7, 8, 9, 10] 4 3).1.length : ℤ) =
      min ((3 : ℕ) : ℤ)
        (max 0 ((([1, 2, 3, 4, 5, 6, 7, 8, 9, 10] : List ℕ).length : ℤ) -
          (((4 : ℕ) : ℤ) - 1) * (3 : ℕ)))) ∧
    ((([1, 2, 3, 4, 5, 6, 7, 8, 9, 10] : List ℕ).length : ℤ) ≤
        (((4 : ℕ) : ℤ) - 1) * (3 : ℕ) →
      (paginate [1, 2, 3, 4, 5, 6, 7, 8, 9, 10] 4 3).1 = []) :=
  C2_pagination_correct [1, 2, 3, 4, 5, 6, 7, 8, 9, 10] 4 3
    (by decide) (by decide) (by decide)

end CustomerAnalyze
